import Mathlib

/-!
Shallow embedding of `src/bot.py` (a Telegram front end to an image
generation API) and verification of its specification claims.

Timestamps are modelled as rationals (`datetime.now().timestamp()` returns a
real number of seconds); Python `int()` truncation toward zero is modelled by
`pyInt`.  Mutable module state (`user_last_request`) becomes an explicit
`RateState` value threaded through the functions, and `context.user_data`
becomes an explicit `UserData` record.  External effects (the OpenAI call,
HTTP download, file writes) are supplied as oracle parameters describing the
outcome of each effect, so the control flow of the Python source is embedded
faithfully while the environment stays abstract.
-/

namespace ImgGen

/-- Python `int()` applied to a rational: truncation toward zero. -/
def pyInt (q : ℚ) : ℤ := if 0 ≤ q then ⌊q⌋ else ⌈q⌉

/-- The constant `REQUEST_COOLDOWN = 10  # seconds between requests` (bot.py line 48). -/
def REQUEST_COOLDOWN : ℚ := 10

/-- The module-level dictionary `user_last_request = {}` (bot.py line 47):
for each user id, the timestamp of the last accepted request, if any. -/
structure RateState where
  userLastRequest : ℤ → Option ℚ

/-- The update `user_last_request[user_id] = current_time` (bot.py line 328). -/
def setLast (s : RateState) (u : ℤ) (t : ℚ) : RateState :=
  ⟨fun v => if v = u then some t else s.userLastRequest v⟩

/-- The function `check_rate_limit` (bot.py lines 318-329).  Returns
`(allowed, wait_time, new state)`.  If the user has a recorded timestamp and
the elapsed time is below the cooldown, returns `(False, int(cooldown -
elapsed))` without touching the state; otherwise records `current_time` and
returns `(True, 0)`. -/
def check_rate_limit (s : RateState) (userId : ℤ) (currentTime : ℚ) :
    Bool × ℤ × RateState :=
  match s.userLastRequest userId with
  | some lastT =>
    if currentTime - lastT < REQUEST_COOLDOWN then
      (false, pyInt (REQUEST_COOLDOWN - (currentTime - lastT)), s)
    else
      (true, 0, setLast s userId currentTime)
  | none => (true, 0, setLast s userId currentTime)

/-! ### The OpenAI call and the retry loop -/

/-- The exception taxonomy of the OpenAI client as caught in bot.py:
`APIConnectionError`, `RateLimitError`, `APIError` (with its message text),
and any other exception. -/
inductive ApiError where
  | connection
  | rateLimit
  | api (msg : String)
  | other (msg : String)
deriving DecidableEq, Repr

/-- Whether an exception is an `APIConnectionError` (the only class the
retry loop catches). -/
def ApiError.isConnection : ApiError → Bool
  | .connection => true
  | _ => false

/-- The fields of `client.images.generate(...)` used by the bot:
`response.data[0].url` and `response.data[0].revised_prompt`. -/
structure ImageResponse where
  url : String
  revisedPrompt : String
deriving DecidableEq, Repr

/-- Observable result of the retry loop: the final outcome, the number of
underlying API call attempts made, and the list of `asyncio.sleep`
durations performed between attempts. -/
structure RetryResult where
  outcome : Except ApiError ImageResponse
  attemptsMade : ℕ
  sleeps : List ℕ

/-- The body of `for attempt in range(max_retries)` (bot.py lines 627-646 and
481-500), starting at a given attempt index.  `call a` is the outcome of the
`client.images.generate` call on attempt `a` (0-based).  On success the loop
breaks; on `APIConnectionError` with `attempt < max_retries - 1` it sleeps
2 seconds and continues; on the last attempt, or on any other exception, the
exception propagates. -/
def retryFrom (call : ℕ → Except ApiError ImageResponse) (maxRetries : ℕ)
    (attempt : ℕ) (sleeps : List ℕ) : RetryResult :=
  match call attempt with
  | .ok r => ⟨.ok r, attempt + 1, sleeps⟩
  | .error e =>
    if e.isConnection then
      if attempt < maxRetries - 1 then
        retryFrom call maxRetries (attempt + 1) (sleeps ++ [2])
      else ⟨.error e, attempt + 1, sleeps⟩
    else ⟨.error e, attempt + 1, sleeps⟩
termination_by maxRetries - attempt
decreasing_by omega

/-- The whole retry loop with `max_retries = 3`, starting at attempt 0. -/
def callWithRetry (call : ℕ → Except ApiError ImageResponse) : RetryResult :=
  retryFrom call 3 0 []

/-! ### Session state, paths and the three handlers -/

/-- The `context.user_data` dictionary keys used by the bot.  Absent counter
keys are read as 0 by `user_data.get(key, 0)`, so the counters are plain
naturals starting at 0; `uploaded_image_path` and `last_prompt` are absent
(`none`) until first written. -/
structure UserData where
  uploadedImagePath : Option String
  imagesGenerated : ℕ
  imagesTransformed : ℕ
  imagesUploaded : ℕ
  lastPrompt : Option String
deriving DecidableEq, Repr

/-- Environment of `save_generated_image` (bot.py lines 51-83): the
formatted timestamp, whether the HTTP download (`requests.get` +
`raise_for_status`) succeeds, whether the file write and size query succeed,
and the resulting size in KB. -/
structure SaveEnv where
  timestamp : String
  downloadOk : Bool
  writeOk : Bool
  fileSizeKb : ℚ

/-- The function `save_generated_image(image_url, user_id, image_type)` (bot.py lines
51-83): on success returns the written path
`generated_images/<user_id>/<image_type>_<timestamp>.png` and its size in
KB; any exception is caught and `(None, 0)` is returned. -/
def save_generated_image (env : SaveEnv) (userId : ℤ) (imageType : String) :
    Option String × ℚ :=
  if env.downloadOk && env.writeOk then
    (some ("generated_images/" ++ toString userId ++ "/" ++ imageType ++ "_"
      ++ env.timestamp ++ ".png"), env.fileSizeKb)
  else (none, 0)

/-- The derived prompt of the transform flow (bot.py line 479):
`f"An image that {prompt}, maintaining the essence and subject of the
original"`. -/
def full_prompt (prompt : String) : String :=
  "An image that " ++ prompt ++
    ", maintaining the essence and subject of the original"

/-- Python `s.rsplit(".", 1)[0]`: everything before the last `.`, or the
whole string when it has no `.`. -/
def rsplitBase (s : String) : String :=
  let cs := s.toList
  if '.' ∈ cs then
    String.mk ((cs.reverse.dropWhile (fun c => c ≠ '.')).drop 1).reverse
  else s

/-- The output path of `prepare_image_for_api` (bot.py line 358):
`image_path.rsplit(".", 1)[0] + "_prepared.png"`. -/
def prepare_output_path (imagePath : String) : String :=
  rsplitBase imagePath ++ "_prepared.png"

/-- Python `os.path.basename`: the part after the last `/`. -/
def pyBasename (p : String) : String :=
  String.mk (p.toList.reverse.takeWhile (fun c => c ≠ '/')).reverse

/-- The saved-file field of the delivery caption (bot.py lines 513 and 658):
`os.path.basename(saved_path) if saved_path else 'N/A'`. -/
def savedNameCaption : Option String → String
  | some p => pyBasename p
  | none => "N/A"

/-- Environment shared by `transform_image` and `generate_image`: the
current time for the rate limiter, whether `prepare_image_for_api` and the
subsequent file read succeed, the outcome of the OpenAI call as a function
of the submitted prompt and the attempt index, and the environment of
`save_generated_image`. -/
structure HandlerEnv where
  now : ℚ
  prepareOk : Bool
  genCall : String → ℕ → Except ApiError ImageResponse
  save : SaveEnv

/-- Observable outcome of `transform_image` (bot.py lines 431-593). -/
inductive TransformResult where
  | noImage
  | rateLimited (wait : ℤ)
  | prepFailed
  | failed (e : ApiError)
  | success (resp : ImageResponse) (savedPath : Option String)
deriving DecidableEq, Repr

/-- Full observable effect of `transform_image`: the outcome, the user's
session data and rate state afterwards, the prompt submitted to the OpenAI
call (if it was reached), and the files the handler removed. -/
structure TransformOut where
  result : TransformResult
  userData : UserData
  rate : RateState
  submittedPrompt : Option String
  removedFiles : List String

/-- The handler `transform_image` (bot.py lines 431-593).  Without a pending upload it
only replies; otherwise it checks the rate limit, prepares the uploaded
image, submits the derived prompt through the retry loop, and on success
saves the result, removes the prepared intermediate file, clears the pending
upload reference, increments `images_transformed` and records the prompt.
Every exception path leaves the session data unchanged. -/
def transform_image (ud : UserData) (rs : RateState) (userId : ℤ)
    (env : HandlerEnv) (prompt : String) : TransformOut :=
  match ud.uploadedImagePath with
  | none => ⟨.noImage, ud, rs, none, []⟩
  | some imagePath =>
    let rl := check_rate_limit rs userId env.now
    if rl.1 = false then ⟨.rateLimited rl.2.1, ud, rl.2.2, none, []⟩
    else if env.prepareOk = false then ⟨.prepFailed, ud, rl.2.2, none, []⟩
    else
      let preparedPath := prepare_output_path imagePath
      let fp := full_prompt prompt
      let r := callWithRetry (env.genCall fp)
      match r.outcome with
      | .error e => ⟨.failed e, ud, rl.2.2, some fp, []⟩
      | .ok resp =>
        let sv := save_generated_image env.save userId "transformed"
        ⟨.success resp sv.1,
         { ud with uploadedImagePath := none,
                   imagesTransformed := ud.imagesTransformed + 1,
                   lastPrompt := some prompt },
         rl.2.2, some fp, [preparedPath]⟩

/-- Observable outcome of `generate_image` (bot.py lines 596-726). -/
inductive GenerateResult where
  | routedToTransform (t : TransformResult)
  | rateLimited (wait : ℤ)
  | failed (e : ApiError)
  | success (resp : ImageResponse) (savedPath : Option String)
deriving DecidableEq, Repr

/-- Full observable effect of `generate_image`. -/
structure GenerateOut where
  result : GenerateResult
  userData : UserData
  rate : RateState
  submittedPrompt : Option String
  removedFiles : List String

/-- The handler `generate_image` (bot.py lines 596-726) for free text.  If the
user has a pending upload, it defers entirely to `transform_image` with the
text as instruction; otherwise it checks the rate limit, submits the text as
the prompt through the retry loop, and on success saves the result,
increments `images_generated` and records the prompt.  Exception paths leave
the session data unchanged. -/
def generate_image (ud : UserData) (rs : RateState) (userId : ℤ)
    (env : HandlerEnv) (text : String) : GenerateOut :=
  if ud.uploadedImagePath.isSome then
    let t := transform_image ud rs userId env text
    ⟨.routedToTransform t.result, t.userData, t.rate, t.submittedPrompt,
     t.removedFiles⟩
  else
    let rl := check_rate_limit rs userId env.now
    if rl.1 = false then ⟨.rateLimited rl.2.1, ud, rl.2.2, none, []⟩
    else
      let r := callWithRetry (env.genCall text)
      match r.outcome with
      | .error e => ⟨.failed e, ud, rl.2.2, some text, []⟩
      | .ok resp =>
        let sv := save_generated_image env.save userId "generated"
        ⟨.success resp sv.1,
         { ud with imagesGenerated := ud.imagesGenerated + 1,
                   lastPrompt := some text },
         rl.2.2, some text, []⟩

/-- Python truthiness of `update.message.caption` (an optional string):
`None` and the empty string are falsy. -/
def pyTruthy : Option String → Bool
  | none => false
  | some s => s != ""

/-- Environment of `handle_photo` (bot.py lines 364-428): the formatted
timestamp, whether fetching and downloading the photo succeeds, the optional
caption, and the environment for a caption-triggered transformation. -/
structure PhotoEnv where
  timestamp : String
  downloadOk : Bool
  caption : Option String
  handler : HandlerEnv

/-- Observable outcome of `handle_photo`. -/
inductive PhotoResult where
  | uploadError
  | askedInstruction
  | transformed (t : TransformResult)
deriving DecidableEq, Repr

/-- Full observable effect of `handle_photo`. -/
structure PhotoOut where
  result : PhotoResult
  userData : UserData
  rate : RateState
  submittedPrompt : Option String

/-- The stored upload path (bot.py lines 376-382):
`uploaded_images/<user_id>/upload_<timestamp>.jpg`. -/
def uploadFilepath (userId : ℤ) (timestamp : String) : String :=
  "uploaded_images/" ++ toString userId ++ "/upload_" ++ timestamp ++ ".jpg"

/-- The handler `handle_photo` (bot.py lines 364-428).  On a successful download it
stores the file path as the pending upload reference and increments
`images_uploaded`; then a truthy caption immediately triggers
`transform_image` with the caption as the instruction, and no caption asks
the user for one.  A download failure leaves the session data unchanged. -/
def handle_photo (ud : UserData) (rs : RateState) (userId : ℤ)
    (env : PhotoEnv) : PhotoOut :=
  if env.downloadOk = false then ⟨.uploadError, ud, rs, none⟩
  else
    let filepath := uploadFilepath userId env.timestamp
    let ud1 := { ud with uploadedImagePath := some filepath,
                         imagesUploaded := ud.imagesUploaded + 1 }
    if pyTruthy env.caption then
      let t := transform_image ud1 rs userId env.handler (env.caption.getD "")
      ⟨.transformed t.result, t.userData, t.rate, t.submittedPrompt⟩
    else ⟨.askedInstruction, ud1, rs, none⟩

/-! ### The PIL image model for prepare_image_for_api -/

/-- The PIL color modes distinguished by `prepare_image_for_api`:
the non-opaque modes `RGBA`, `LA` and `P` (palette) are converted; every
other mode (RGB, L, ...) passes through. -/
inductive PILMode where
  | RGB
  | RGBA
  | LA
  | P
  | L
  | other (name : String)
deriving DecidableEq, Repr

/-- A PIL image as far as `prepare_image_for_api` observes it: its color
mode and its pixel dimensions. -/
structure PILImage where
  mode : PILMode
  width : ℕ
  height : ℕ
deriving DecidableEq, Repr

/-- The RGB conversion step (bot.py lines 342-350): `RGBA`, `LA` and `P`
images are pasted onto a white RGB background of the same size; other modes
are left untouched. -/
def convertToRGB (img : PILImage) : PILImage :=
  match img.mode with
  | .RGBA => ⟨.RGB, img.width, img.height⟩
  | .LA => ⟨.RGB, img.width, img.height⟩
  | .P => ⟨.RGB, img.width, img.height⟩
  | _ => img

/-- Pillow's `round_aspect` helper inside `Image.thumbnail`:
`max(min(math.floor(number), math.ceil(number), key=key), 1)`; ties go to
the floor because Python's `min` keeps the first argument. -/
def round_aspect (number : ℚ) (key : ℤ → ℚ) : ℤ :=
  max (if key ⌊number⌋ ≤ key ⌈number⌉ then ⌊number⌋ else ⌈number⌉) 1

/-- The size computed by Pillow's `Image.thumbnail((x0, y0))` for a `w × h`
image: a no-op when the image already fits in the box, otherwise the
aspect-preserving fit into the box with Pillow's rounding of the scaled
dimension. -/
def thumbnailSize (w h x0 y0 : ℕ) : ℕ × ℕ :=
  if x0 ≥ w ∧ y0 ≥ h then (w, h)
  else
    if (x0 : ℚ) / (y0 : ℚ) ≥ (w : ℚ) / (h : ℚ) then
      ((round_aspect ((y0 : ℚ) * ((w : ℚ) / (h : ℚ)))
          (fun n => |(w : ℚ) / (h : ℚ) - (n : ℚ) / (y0 : ℚ)|)).toNat, y0)
    else
      (x0, (round_aspect ((x0 : ℚ) / ((w : ℚ) / (h : ℚ)))
          (fun n => if n = 0 then 0
            else |(w : ℚ) / (h : ℚ) - (x0 : ℚ) / (n : ℚ)|)).toNat)

/-- The constant `max_size = 1024` (bot.py line 353). -/
def MAX_SIZE : ℕ := 1024

/-- The resize step (bot.py lines 352-355): thumbnail to fit within
`1024 × 1024` only when a dimension exceeds 1024. -/
def resizeStep (img1 : PILImage) : PILImage :=
  if img1.width > MAX_SIZE ∨ img1.height > MAX_SIZE then
    ⟨img1.mode, (thumbnailSize img1.width img1.height MAX_SIZE MAX_SIZE).1,
      (thumbnailSize img1.width img1.height MAX_SIZE MAX_SIZE).2⟩
  else img1

/-- The function `prepare_image_for_api` (bot.py lines 338-361): converts
`RGBA`/`LA`/`P` inputs to RGB, thumbnails to fit within 1024×1024 when a
dimension exceeds 1024, and saves the result as PNG at
`image_path.rsplit(".", 1)[0] + "_prepared.png"`, returning that path. -/
def prepare_image_for_api (img : PILImage) (imagePath : String) :
    PILImage × String :=
  (resizeStep (convertToRGB img), prepare_output_path imagePath)

/-! ### Verified claims -/

/-- C1 (amended): when a user has a recorded timestamp and the (nonnegative)
elapsed time is below the 10-second cooldown, the check returns not-allowed
with wait time `⌊cooldown - elapsed⌋`; this wait time is always `≥ 0` and
`≤ cooldown`, and it is strictly below the cooldown whenever the elapsed time
is strictly positive (at elapsed time exactly 0 it equals the cooldown). -/
theorem rate_limit_wait_bounds (s : RateState) (u : ℤ) (now lastT : ℚ)
    (hlast : s.userLastRequest u = some lastT)
    (h0 : 0 ≤ now - lastT) (hlt : now - lastT < REQUEST_COOLDOWN) :
    (check_rate_limit s u now).1 = false ∧
    (check_rate_limit s u now).2.1 = ⌊REQUEST_COOLDOWN - (now - lastT)⌋ ∧
    0 ≤ (check_rate_limit s u now).2.1 ∧
    (check_rate_limit s u now).2.1 ≤ 10 ∧
    (0 < now - lastT → (check_rate_limit s u now).2.1 < 10) := by
  have hcool : REQUEST_COOLDOWN = (10 : ℚ) := rfl
  have harg : (0 : ℚ) ≤ REQUEST_COOLDOWN - (now - lastT) := by
    rw [hcool]; linarith
  have hres : check_rate_limit s u now =
      (false, pyInt (REQUEST_COOLDOWN - (now - lastT)), s) := by
    unfold check_rate_limit
    rw [hlast]
    simp only [if_pos hlt]
  have hw : pyInt (REQUEST_COOLDOWN - (now - lastT)) =
      ⌊REQUEST_COOLDOWN - (now - lastT)⌋ := by
    unfold pyInt; rw [if_pos harg]
  rw [hres]
  refine ⟨rfl, hw, ?_, ?_, ?_⟩
  · rw [hw]
    exact Int.floor_nonneg.mpr harg
  · rw [hw]
    have h10 : REQUEST_COOLDOWN - (now - lastT) ≤ (10 : ℚ) := by
      rw [hcool]; linarith
    have hfl : (⌊REQUEST_COOLDOWN - (now - lastT)⌋ : ℚ) ≤ (10 : ℚ) :=
      le_trans (Int.floor_le _) h10
    exact_mod_cast hfl
  · intro hpos
    rw [hw]
    have h10 : REQUEST_COOLDOWN - (now - lastT) < (10 : ℚ) := by
      rw [hcool]; linarith
    exact Int.floor_lt.mpr (by exact_mod_cast h10)

/-- Witness for `rate_limit_wait_bounds` at a concrete state and times. -/
theorem rate_limit_wait_bounds_witness :
    (check_rate_limit ⟨fun _ => some 0⟩ 0 3).1 = false ∧
    (check_rate_limit ⟨fun _ => some 0⟩ 0 3).2.1 = ⌊REQUEST_COOLDOWN - ((3 : ℚ) - 0)⌋ ∧
    0 ≤ (check_rate_limit ⟨fun _ => some 0⟩ 0 3).2.1 ∧
    (check_rate_limit ⟨fun _ => some 0⟩ 0 3).2.1 ≤ 10 ∧
    (0 < (3 : ℚ) - 0 → (check_rate_limit ⟨fun _ => some 0⟩ 0 3).2.1 < 10) :=
  rate_limit_wait_bounds ⟨fun _ => some 0⟩ 0 3 0 rfl (by norm_num)
    (by norm_num [REQUEST_COOLDOWN])

/-- C1 counterexample: a second check at exactly the timestamp of the last
accepted request (elapsed time 0, which is less than the cooldown) is
rejected with wait time `int(10 - 0) = 10`, which is NOT strictly less than
the cooldown, refuting "this wait time is always ... < cooldown". -/
theorem rate_limit_wait_claim_counterexample :
    ((100 : ℚ) - 100 < REQUEST_COOLDOWN) ∧
    (check_rate_limit ⟨fun _ => some 100⟩ 0 100).1 = false ∧
    (check_rate_limit ⟨fun _ => some 100⟩ 0 100).2.1 = 10 ∧
    ¬ ((check_rate_limit ⟨fun _ => some 100⟩ 0 100).2.1 < 10) := by
  refine ⟨by norm_num [REQUEST_COOLDOWN], ?_, ?_, ?_⟩ <;>
    norm_num [check_rate_limit, pyInt, REQUEST_COOLDOWN]

/-- C2: a check made when the elapsed time since the stored timestamp is at
least the cooldown returns allowed with wait 0 and overwrites the stored
timestamp with the current time; a rejected check (elapsed below cooldown)
returns the state unchanged, so a user rejected at `t1` is accepted at `t2`
once `t2 - lastT ≥ cooldown`. -/
theorem rate_limit_reset_after_cooldown (s : RateState) (u : ℤ)
    (lastT t1 t2 : ℚ) (hlast : s.userLastRequest u = some lastT)
    (h1 : t1 - lastT < REQUEST_COOLDOWN)
    (h2 : REQUEST_COOLDOWN ≤ t2 - lastT) :
    (check_rate_limit s u t2).1 = true ∧
    (check_rate_limit s u t2).2.1 = 0 ∧
    (check_rate_limit s u t2).2.2.userLastRequest u = some t2 ∧
    (check_rate_limit s u t1).1 = false ∧
    (check_rate_limit s u t1).2.2 = s ∧
    (check_rate_limit (check_rate_limit s u t1).2.2 u t2).1 = true := by
  have h2' : ¬ (t2 - lastT < REQUEST_COOLDOWN) := not_lt.mpr h2
  have hacc : check_rate_limit s u t2 = (true, 0, setLast s u t2) := by
    unfold check_rate_limit
    rw [hlast]
    simp only [if_neg h2']
  have hrej : check_rate_limit s u t1 =
      (false, pyInt (REQUEST_COOLDOWN - (t1 - lastT)), s) := by
    unfold check_rate_limit
    rw [hlast]
    simp only [if_pos h1]
  refine ⟨by rw [hacc], by rw [hacc], ?_, by rw [hrej], by rw [hrej], ?_⟩
  · rw [hacc]; unfold setLast; simp
  · rw [hrej, hacc]

/-- Witness for `rate_limit_reset_after_cooldown`: last accepted at 0,
rejected at 4, accepted at 12. -/
theorem rate_limit_reset_after_cooldown_witness :
    (check_rate_limit ⟨fun _ => some 0⟩ 7 12).1 = true ∧
    (check_rate_limit ⟨fun _ => some 0⟩ 7 12).2.1 = 0 ∧
    (check_rate_limit ⟨fun _ => some 0⟩ 7 12).2.2.userLastRequest 7 = some 12 ∧
    (check_rate_limit ⟨fun _ => some 0⟩ 7 4).1 = false ∧
    (check_rate_limit ⟨fun _ => some 0⟩ 7 4).2.2 = ⟨fun _ => some 0⟩ ∧
    (check_rate_limit (check_rate_limit ⟨fun _ => some 0⟩ 7 4).2.2 7 12).1 = true :=
  rate_limit_reset_after_cooldown ⟨fun _ => some 0⟩ 7 0 4 12 rfl
    (by norm_num [REQUEST_COOLDOWN]) (by norm_num [REQUEST_COOLDOWN])

/-- C10: a user with no recorded timestamp is always allowed with wait 0,
and the current time is recorded as that user's timestamp, regardless of the
value of the current time. -/
theorem first_request_always_allowed (s : RateState) (u : ℤ) (now : ℚ)
    (hnone : s.userLastRequest u = none) :
    (check_rate_limit s u now).1 = true ∧
    (check_rate_limit s u now).2.1 = 0 ∧
    (check_rate_limit s u now).2.2.userLastRequest u = some now := by
  unfold check_rate_limit
  rw [hnone]
  exact ⟨rfl, rfl, by unfold setLast; simp⟩

/-- Witness for `first_request_always_allowed` at an empty state. -/
theorem first_request_always_allowed_witness :
    (check_rate_limit ⟨fun _ => none⟩ 5 (-42)).1 = true ∧
    (check_rate_limit ⟨fun _ => none⟩ 5 (-42)).2.1 = 0 ∧
    (check_rate_limit ⟨fun _ => none⟩ 5 (-42)).2.2.userLastRequest 5 = some (-42) :=
  first_request_always_allowed ⟨fun _ => none⟩ 5 (-42) rfl

/-- C3: the dispatch retries only on connection failure, at most 3 attempts,
sleeping 2 seconds between attempts: (a) connection failures on attempts 1
and 2 and success on attempt 3 yield that success with exactly 3 attempts
and two 2-second sleeps; (b) connection failures on all 3 attempts surface
as the connection error after exactly 3 attempts; (c) any non-connection
failure on the first attempt propagates immediately after 1 attempt with no
sleep. -/
theorem retry_only_on_connection_failure
    (call : ℕ → Except ApiError ImageResponse) :
    (∀ r : ImageResponse, call 0 = .error .connection →
      call 1 = .error .connection → call 2 = .ok r →
      callWithRetry call = ⟨.ok r, 3, [2, 2]⟩) ∧
    (call 0 = .error .connection → call 1 = .error .connection →
      call 2 = .error .connection →
      callWithRetry call = ⟨.error .connection, 3, [2, 2]⟩) ∧
    (∀ e : ApiError, call 0 = .error e → e.isConnection = false →
      callWithRetry call = ⟨.error e, 1, []⟩) := by
  refine ⟨?_, ?_, ?_⟩
  · intro r h0 h1 h2
    unfold callWithRetry
    rw [retryFrom, h0]
    norm_num [ApiError.isConnection]
    rw [retryFrom, h1]
    norm_num [ApiError.isConnection]
    rw [retryFrom, h2]
  · intro h0 h1 h2
    unfold callWithRetry
    rw [retryFrom, h0]
    norm_num [ApiError.isConnection]
    rw [retryFrom, h1]
    norm_num [ApiError.isConnection]
    rw [retryFrom, h2]
    norm_num [ApiError.isConnection]
  · intro e h0 hne
    unfold callWithRetry
    rw [retryFrom, h0]
    simp [hne]

/-- Witness for `retry_only_on_connection_failure` on concrete call
oracles covering all three scenarios. -/
theorem retry_only_on_connection_failure_witness :
    (callWithRetry (fun a => if a < 2 then .error .connection
        else .ok ⟨"u", "rp"⟩) = ⟨.ok ⟨"u", "rp"⟩, 3, [2, 2]⟩) ∧
    (callWithRetry (fun _ => .error .connection) =
      ⟨.error .connection, 3, [2, 2]⟩) ∧
    (callWithRetry (fun _ => .error (.api "bad")) =
      ⟨.error (.api "bad"), 1, []⟩) :=
  ⟨(retry_only_on_connection_failure
      (fun a => if a < 2 then .error .connection else .ok ⟨"u", "rp"⟩)).1
      ⟨"u", "rp"⟩ rfl rfl rfl,
   (retry_only_on_connection_failure (fun _ => .error .connection)).2.1
      rfl rfl rfl,
   (retry_only_on_connection_failure (fun _ => .error (.api "bad"))).2.2
      (.api "bad") rfl rfl⟩

/-- C4: in a transformation request with a pending upload that passes the
rate limit and reaches the generation call, a successful call clears the
pending upload reference from the session state, and a failed call (any
error) leaves it unchanged. -/
theorem transform_pending_reference (ud : UserData) (rs : RateState)
    (userId : ℤ) (env : HandlerEnv) (prompt p : String)
    (hup : ud.uploadedImagePath = some p)
    (hrl : (check_rate_limit rs userId env.now).1 = true)
    (hprep : env.prepareOk = true) :
    (∀ resp : ImageResponse,
      (callWithRetry (env.genCall (full_prompt prompt))).outcome = .ok resp →
      (transform_image ud rs userId env prompt).userData.uploadedImagePath
        = none) ∧
    (∀ e : ApiError,
      (callWithRetry (env.genCall (full_prompt prompt))).outcome = .error e →
      (transform_image ud rs userId env prompt).userData.uploadedImagePath
        = some p) := by
  unfold transform_image
  rw [hup]
  simp only [hrl, hprep, Bool.true_eq_false, if_false]
  constructor
  · intro resp hgen
    rw [hgen]
  · intro e hgen
    rw [hgen, hup]

/-- Witness for `transform_pending_reference`: a concrete pending upload
with a succeeding call (reference cleared) and with a connection-failing
call (reference intact). -/
theorem transform_pending_reference_witness :
    (transform_image ⟨some "up.jpg", 0, 0, 0, none⟩ ⟨fun _ => none⟩ 1
        ⟨0, true, fun _ _ => .ok ⟨"u", "r"⟩, ⟨"ts", true, true, 1⟩⟩
        "make it anime").userData.uploadedImagePath = none ∧
    (transform_image ⟨some "up.jpg", 0, 0, 0, none⟩ ⟨fun _ => none⟩ 1
        ⟨0, true, fun _ _ => .error .connection, ⟨"ts", true, true, 1⟩⟩
        "make it anime").userData.uploadedImagePath = some "up.jpg" :=
  ⟨(transform_pending_reference ⟨some "up.jpg", 0, 0, 0, none⟩
      ⟨fun _ => none⟩ 1
      ⟨0, true, fun _ _ => .ok ⟨"u", "r"⟩, ⟨"ts", true, true, 1⟩⟩
      "make it anime" "up.jpg" rfl rfl rfl).1 ⟨"u", "r"⟩
      (by simp [callWithRetry, retryFrom]),
   (transform_pending_reference ⟨some "up.jpg", 0, 0, 0, none⟩
      ⟨fun _ => none⟩ 1
      ⟨0, true, fun _ _ => .error .connection, ⟨"ts", true, true, 1⟩⟩
      "make it anime" "up.jpg" rfl rfl rfl).2 .connection
      (by simp [callWithRetry, retryFrom, ApiError.isConnection])⟩

/-- C5 (amended): the prompt submitted to the generation call for a
transformation with instruction `prompt` is exactly
`"An image that " ++ prompt ++ ", maintaining the essence and subject of
the original"` (bot.py line 479), not the spec's quoted wording. -/
theorem transform_submitted_prompt (ud : UserData) (rs : RateState)
    (userId : ℤ) (env : HandlerEnv) (prompt p : String)
    (hup : ud.uploadedImagePath = some p)
    (hrl : (check_rate_limit rs userId env.now).1 = true)
    (hprep : env.prepareOk = true) :
    (transform_image ud rs userId env prompt).submittedPrompt =
      some ("An image that " ++ prompt ++
        ", maintaining the essence and subject of the original") := by
  unfold transform_image
  rw [hup]
  simp only [hrl, hprep, Bool.true_eq_false, if_false]
  cases hgen : (callWithRetry (env.genCall (full_prompt prompt))).outcome <;>
    simp [full_prompt]

/-- Witness for `transform_submitted_prompt` at a concrete instruction. -/
theorem transform_submitted_prompt_witness :
    (transform_image ⟨some "up.jpg", 0, 0, 0, none⟩ ⟨fun _ => none⟩ 1
        ⟨0, true, fun _ _ => .ok ⟨"u", "r"⟩, ⟨"ts", true, true, 1⟩⟩
        "looks like a sketch").submittedPrompt =
      some ("An image that " ++ "looks like a sketch" ++
        ", maintaining the essence and subject of the original") :=
  transform_submitted_prompt ⟨some "up.jpg", 0, 0, 0, none⟩ ⟨fun _ => none⟩ 1
    ⟨0, true, fun _ _ => .ok ⟨"u", "r"⟩, ⟨"ts", true, true, 1⟩⟩
    "looks like a sketch" "up.jpg" rfl rfl rfl

/-- C5 counterexample: on a concrete transformation request the submitted
prompt is the source's `"An image that ..., maintaining the essence and
subject of the original"`, which differs from the claim's
`"an image that ..., preserving the essence of the original"`. -/
theorem transform_prompt_claim_counterexample :
    (transform_image ⟨some "up.jpg", 0, 0, 0, none⟩ ⟨fun _ => none⟩ 1
        ⟨0, true, fun _ _ => .ok ⟨"u", "r"⟩, ⟨"ts", true, true, 1⟩⟩
        "looks like a sketch").submittedPrompt ≠
      some ("an image that " ++ "looks like a sketch" ++
        ", preserving the essence of the original") := by
  simp [transform_image, check_rate_limit, callWithRetry, retryFrom,
    full_prompt]

/-- C7: a photo upload with no caption stores the downloaded file path as
the pending upload reference and asks for an instruction; a photo with a
(truthy) caption immediately runs the transformation flow with the caption
as the instruction; and a free-text message from a user with a pending
upload reference is routed to the transformation flow instead of plain
text-to-image generation. -/
theorem photo_upload_and_text_routing (ud : UserData) (rs : RateState)
    (userId : ℤ) (penv : PhotoEnv) (env : HandlerEnv) (text : String) :
    (penv.downloadOk = true → pyTruthy penv.caption = false →
      (handle_photo ud rs userId penv).result = .askedInstruction ∧
      (handle_photo ud rs userId penv).userData.uploadedImagePath =
        some (uploadFilepath userId penv.timestamp)) ∧
    (∀ c : String, penv.downloadOk = true → penv.caption = some c →
      pyTruthy (some c) = true →
      (handle_photo ud rs userId penv).result = .transformed
        (transform_image
          { ud with
              uploadedImagePath := some (uploadFilepath userId penv.timestamp),
              imagesUploaded := ud.imagesUploaded + 1 }
          rs userId penv.handler c).result ∧
      (handle_photo ud rs userId penv).userData =
        (transform_image
          { ud with
              uploadedImagePath := some (uploadFilepath userId penv.timestamp),
              imagesUploaded := ud.imagesUploaded + 1 }
          rs userId penv.handler c).userData) ∧
    (∀ p : String, ud.uploadedImagePath = some p →
      (generate_image ud rs userId env text).result = .routedToTransform
        (transform_image ud rs userId env text).result ∧
      (generate_image ud rs userId env text).userData =
        (transform_image ud rs userId env text).userData) := by
  refine ⟨?_, ?_, ?_⟩
  · intro hdl hcap
    unfold handle_photo
    simp [hdl, hcap]
  · intro c hdl hcap htr
    unfold handle_photo
    rw [hdl, hcap]
    simp [htr]
  · intro p hup
    unfold generate_image
    rw [hup]
    simp

/-- Witness for `photo_upload_and_text_routing`: concrete captionless and
captioned uploads and a concrete routed text message. -/
theorem photo_upload_and_text_routing_witness :
    ((handle_photo ⟨none, 0, 0, 0, none⟩ ⟨fun _ => none⟩ 1
        ⟨"ts", true, none, ⟨0, true, fun _ _ => .ok ⟨"u", "r"⟩,
          ⟨"ts", true, true, 1⟩⟩⟩).result = .askedInstruction ∧
      (handle_photo ⟨none, 0, 0, 0, none⟩ ⟨fun _ => none⟩ 1
        ⟨"ts", true, none, ⟨0, true, fun _ _ => .ok ⟨"u", "r"⟩,
          ⟨"ts", true, true, 1⟩⟩⟩).userData.uploadedImagePath =
        some (uploadFilepath 1 "ts")) ∧
    ((handle_photo ⟨none, 0, 0, 0, none⟩ ⟨fun _ => none⟩ 1
        ⟨"ts", true, some "anime", ⟨0, true, fun _ _ => .ok ⟨"u", "r"⟩,
          ⟨"ts", true, true, 1⟩⟩⟩).result = .transformed
        (transform_image
          ⟨some (uploadFilepath 1 "ts"), 0, 0, 0 + 1, none⟩
          ⟨fun _ => none⟩ 1
          ⟨0, true, fun _ _ => .ok ⟨"u", "r"⟩, ⟨"ts", true, true, 1⟩⟩
          "anime").result) ∧
    ((generate_image ⟨some "up.jpg", 0, 0, 0, none⟩ ⟨fun _ => none⟩ 1
        ⟨0, true, fun _ _ => .ok ⟨"u", "r"⟩, ⟨"ts", true, true, 1⟩⟩
        "anime").result = .routedToTransform
        (transform_image ⟨some "up.jpg", 0, 0, 0, none⟩ ⟨fun _ => none⟩ 1
          ⟨0, true, fun _ _ => .ok ⟨"u", "r"⟩, ⟨"ts", true, true, 1⟩⟩
          "anime").result) :=
  ⟨(photo_upload_and_text_routing ⟨none, 0, 0, 0, none⟩ ⟨fun _ => none⟩ 1
      ⟨"ts", true, none, ⟨0, true, fun _ _ => .ok ⟨"u", "r"⟩,
        ⟨"ts", true, true, 1⟩⟩⟩
      ⟨0, true, fun _ _ => .ok ⟨"u", "r"⟩, ⟨"ts", true, true, 1⟩⟩
      "anime").1 rfl rfl,
   ((photo_upload_and_text_routing ⟨none, 0, 0, 0, none⟩ ⟨fun _ => none⟩ 1
      ⟨"ts", true, some "anime", ⟨0, true, fun _ _ => .ok ⟨"u", "r"⟩,
        ⟨"ts", true, true, 1⟩⟩⟩
      ⟨0, true, fun _ _ => .ok ⟨"u", "r"⟩, ⟨"ts", true, true, 1⟩⟩
      "anime").2.1 "anime" rfl rfl rfl).1,
   ((photo_upload_and_text_routing ⟨some "up.jpg", 0, 0, 0, none⟩
      ⟨fun _ => none⟩ 1
      ⟨"ts", true, none, ⟨0, true, fun _ _ => .ok ⟨"u", "r"⟩,
        ⟨"ts", true, true, 1⟩⟩⟩
      ⟨0, true, fun _ _ => .ok ⟨"u", "r"⟩, ⟨"ts", true, true, 1⟩⟩
      "anime").2.2 "up.jpg" rfl).1⟩

/-- C6: each per-user counter increments by exactly 1 on its corresponding
successful operation (photo upload, transformation, text-to-image
generation) with the other two unchanged, and every failed operation
(download failure, rate limiting, a prepare failure, or a generation error)
leaves the session data, hence all three counters, unchanged. -/
theorem counters_track_successful_operations (ud : UserData)
    (rs : RateState) (userId : ℤ) (env : HandlerEnv) (penv : PhotoEnv)
    (prompt p : String) :
    (penv.downloadOk = true → pyTruthy penv.caption = false →
      (handle_photo ud rs userId penv).userData.imagesUploaded
          = ud.imagesUploaded + 1 ∧
      (handle_photo ud rs userId penv).userData.imagesGenerated
          = ud.imagesGenerated ∧
      (handle_photo ud rs userId penv).userData.imagesTransformed
          = ud.imagesTransformed) ∧
    (penv.downloadOk = false →
      (handle_photo ud rs userId penv).userData = ud) ∧
    (ud.uploadedImagePath = some p →
      (check_rate_limit rs userId env.now).1 = true →
      env.prepareOk = true →
      ∀ resp : ImageResponse,
      (callWithRetry (env.genCall (full_prompt prompt))).outcome = .ok resp →
      (transform_image ud rs userId env prompt).userData.imagesTransformed
          = ud.imagesTransformed + 1 ∧
      (transform_image ud rs userId env prompt).userData.imagesGenerated
          = ud.imagesGenerated ∧
      (transform_image ud rs userId env prompt).userData.imagesUploaded
          = ud.imagesUploaded) ∧
    (ud.uploadedImagePath = some p →
      (check_rate_limit rs userId env.now).1 = false →
      (transform_image ud rs userId env prompt).userData = ud) ∧
    (ud.uploadedImagePath = some p →
      (check_rate_limit rs userId env.now).1 = true →
      env.prepareOk = false →
      (transform_image ud rs userId env prompt).userData = ud) ∧
    (ud.uploadedImagePath = some p →
      (check_rate_limit rs userId env.now).1 = true →
      env.prepareOk = true →
      ∀ e : ApiError,
      (callWithRetry (env.genCall (full_prompt prompt))).outcome = .error e →
      (transform_image ud rs userId env prompt).userData = ud) ∧
    (ud.uploadedImagePath = none →
      (check_rate_limit rs userId env.now).1 = true →
      ∀ resp : ImageResponse,
      (callWithRetry (env.genCall prompt)).outcome = .ok resp →
      (generate_image ud rs userId env prompt).userData.imagesGenerated
          = ud.imagesGenerated + 1 ∧
      (generate_image ud rs userId env prompt).userData.imagesTransformed
          = ud.imagesTransformed ∧
      (generate_image ud rs userId env prompt).userData.imagesUploaded
          = ud.imagesUploaded) ∧
    (ud.uploadedImagePath = none →
      (check_rate_limit rs userId env.now).1 = false →
      (generate_image ud rs userId env prompt).userData = ud) ∧
    (ud.uploadedImagePath = none →
      (check_rate_limit rs userId env.now).1 = true →
      ∀ e : ApiError,
      (callWithRetry (env.genCall prompt)).outcome = .error e →
      (generate_image ud rs userId env prompt).userData = ud) := by
  refine ⟨?_, ?_, ?_, ?_, ?_, ?_, ?_, ?_, ?_⟩
  · intro hdl hcap
    unfold handle_photo
    simp [hdl, hcap]
  · intro hdl
    unfold handle_photo
    simp [hdl]
  · intro hup hrl hprep resp hgen
    unfold transform_image
    rw [hup]
    simp only [hrl, hprep, Bool.true_eq_false, if_false]
    rw [hgen]
    simp
  · intro hup hrl
    unfold transform_image
    rw [hup]
    simp [hrl]
  · intro hup hrl hprep
    unfold transform_image
    rw [hup]
    simp [hrl, hprep]
  · intro hup hrl hprep e hgen
    unfold transform_image
    rw [hup]
    simp only [hrl, hprep, Bool.true_eq_false, if_false]
    rw [hgen]
  · intro hup hrl resp hgen
    unfold generate_image
    rw [hup]
    simp only [Option.isSome_none, Bool.false_eq_true, if_false, hrl,
      Bool.true_eq_false]
    rw [hgen]
    simp
  · intro hup hrl
    unfold generate_image
    rw [hup]
    simp [hrl]
  · intro hup hrl e hgen
    unfold generate_image
    rw [hup]
    simp only [Option.isSome_none, Bool.false_eq_true, if_false, hrl,
      Bool.true_eq_false]
    rw [hgen]

/-- Witness for `counters_track_successful_operations`, instantiating every
scenario of the conjunction at concrete inputs. -/
theorem counters_track_successful_operations_witness :
    ((handle_photo ⟨none, 3, 4, 5, none⟩ ⟨fun _ => none⟩ 1
        ⟨"ts", true, none, ⟨0, true, fun _ _ => .ok ⟨"u", "r"⟩,
          ⟨"ts", true, true, 1⟩⟩⟩).userData.imagesUploaded = 5 + 1 ∧
      (handle_photo ⟨none, 3, 4, 5, none⟩ ⟨fun _ => none⟩ 1
        ⟨"ts", true, none, ⟨0, true, fun _ _ => .ok ⟨"u", "r"⟩,
          ⟨"ts", true, true, 1⟩⟩⟩).userData.imagesGenerated = 3 ∧
      (handle_photo ⟨none, 3, 4, 5, none⟩ ⟨fun _ => none⟩ 1
        ⟨"ts", true, none, ⟨0, true, fun _ _ => .ok ⟨"u", "r"⟩,
          ⟨"ts", true, true, 1⟩⟩⟩).userData.imagesTransformed = 4) ∧
    ((handle_photo ⟨none, 3, 4, 5, none⟩ ⟨fun _ => none⟩ 1
        ⟨"ts", false, none, ⟨0, true, fun _ _ => .ok ⟨"u", "r"⟩,
          ⟨"ts", true, true, 1⟩⟩⟩).userData = ⟨none, 3, 4, 5, none⟩) ∧
    ((transform_image ⟨some "up.jpg", 3, 4, 5, none⟩ ⟨fun _ => none⟩ 1
        ⟨0, true, fun _ _ => .ok ⟨"u", "r"⟩, ⟨"ts", true, true, 1⟩⟩
        "anime").userData.imagesTransformed = 4 + 1 ∧
      (transform_image ⟨some "up.jpg", 3, 4, 5, none⟩ ⟨fun _ => none⟩ 1
        ⟨0, true, fun _ _ => .ok ⟨"u", "r"⟩, ⟨"ts", true, true, 1⟩⟩
        "anime").userData.imagesGenerated = 3 ∧
      (transform_image ⟨some "up.jpg", 3, 4, 5, none⟩ ⟨fun _ => none⟩ 1
        ⟨0, true, fun _ _ => .ok ⟨"u", "r"⟩, ⟨"ts", true, true, 1⟩⟩
        "anime").userData.imagesUploaded = 5) ∧
    ((transform_image ⟨some "up.jpg", 3, 4, 5, none⟩ ⟨fun _ => some 0⟩ 1
        ⟨5, true, fun _ _ => .ok ⟨"u", "r"⟩, ⟨"ts", true, true, 1⟩⟩
        "anime").userData = ⟨some "up.jpg", 3, 4, 5, none⟩) ∧
    ((transform_image ⟨some "up.jpg", 3, 4, 5, none⟩ ⟨fun _ => none⟩ 1
        ⟨0, false, fun _ _ => .ok ⟨"u", "r"⟩, ⟨"ts", true, true, 1⟩⟩
        "anime").userData = ⟨some "up.jpg", 3, 4, 5, none⟩) ∧
    ((transform_image ⟨some "up.jpg", 3, 4, 5, none⟩ ⟨fun _ => none⟩ 1
        ⟨0, true, fun _ _ => .error (.api "bad"), ⟨"ts", true, true, 1⟩⟩
        "anime").userData = ⟨some "up.jpg", 3, 4, 5, none⟩) ∧
    ((generate_image ⟨none, 3, 4, 5, none⟩ ⟨fun _ => none⟩ 1
        ⟨0, true, fun _ _ => .ok ⟨"u", "r"⟩, ⟨"ts", true, true, 1⟩⟩
        "a cat").userData.imagesGenerated = 3 + 1 ∧
      (generate_image ⟨none, 3, 4, 5, none⟩ ⟨fun _ => none⟩ 1
        ⟨0, true, fun _ _ => .ok ⟨"u", "r"⟩, ⟨"ts", true, true, 1⟩⟩
        "a cat").userData.imagesTransformed = 4 ∧
      (generate_image ⟨none, 3, 4, 5, none⟩ ⟨fun _ => none⟩ 1
        ⟨0, true, fun _ _ => .ok ⟨"u", "r"⟩, ⟨"ts", true, true, 1⟩⟩
        "a cat").userData.imagesUploaded = 5) ∧
    ((generate_image ⟨none, 3, 4, 5, none⟩ ⟨fun _ => some 0⟩ 1
        ⟨5, true, fun _ _ => .ok ⟨"u", "r"⟩, ⟨"ts", true, true, 1⟩⟩
        "a cat").userData = ⟨none, 3, 4, 5, none⟩) ∧
    ((generate_image ⟨none, 3, 4, 5, none⟩ ⟨fun _ => none⟩ 1
        ⟨0, true, fun _ _ => .error (.api "bad"), ⟨"ts", true, true, 1⟩⟩
        "a cat").userData = ⟨none, 3, 4, 5, none⟩) :=
  ⟨(counters_track_successful_operations ⟨none, 3, 4, 5, none⟩
      ⟨fun _ => none⟩ 1
      ⟨0, true, fun _ _ => .ok ⟨"u", "r"⟩, ⟨"ts", true, true, 1⟩⟩
      ⟨"ts", true, none, ⟨0, true, fun _ _ => .ok ⟨"u", "r"⟩,
        ⟨"ts", true, true, 1⟩⟩⟩ "a cat" "up.jpg").1 rfl rfl,
   (counters_track_successful_operations ⟨none, 3, 4, 5, none⟩
      ⟨fun _ => none⟩ 1
      ⟨0, true, fun _ _ => .ok ⟨"u", "r"⟩, ⟨"ts", true, true, 1⟩⟩
      ⟨"ts", false, none, ⟨0, true, fun _ _ => .ok ⟨"u", "r"⟩,
        ⟨"ts", true, true, 1⟩⟩⟩ "a cat" "up.jpg").2.1 rfl,
   (counters_track_successful_operations ⟨some "up.jpg", 3, 4, 5, none⟩
      ⟨fun _ => none⟩ 1
      ⟨0, true, fun _ _ => .ok ⟨"u", "r"⟩, ⟨"ts", true, true, 1⟩⟩
      ⟨"ts", true, none, ⟨0, true, fun _ _ => .ok ⟨"u", "r"⟩,
        ⟨"ts", true, true, 1⟩⟩⟩ "anime" "up.jpg").2.2.1 rfl rfl rfl
      ⟨"u", "r"⟩ (by simp [callWithRetry, retryFrom]),
   (counters_track_successful_operations ⟨some "up.jpg", 3, 4, 5, none⟩
      ⟨fun _ => some 0⟩ 1
      ⟨5, true, fun _ _ => .ok ⟨"u", "r"⟩, ⟨"ts", true, true, 1⟩⟩
      ⟨"ts", true, none, ⟨0, true, fun _ _ => .ok ⟨"u", "r"⟩,
        ⟨"ts", true, true, 1⟩⟩⟩ "anime" "up.jpg").2.2.2.1 rfl
      (by norm_num [check_rate_limit, REQUEST_COOLDOWN]),
   (counters_track_successful_operations ⟨some "up.jpg", 3, 4, 5, none⟩
      ⟨fun _ => none⟩ 1
      ⟨0, false, fun _ _ => .ok ⟨"u", "r"⟩, ⟨"ts", true, true, 1⟩⟩
      ⟨"ts", true, none, ⟨0, true, fun _ _ => .ok ⟨"u", "r"⟩,
        ⟨"ts", true, true, 1⟩⟩⟩ "anime" "up.jpg").2.2.2.2.1 rfl rfl rfl,
   (counters_track_successful_operations ⟨some "up.jpg", 3, 4, 5, none⟩
      ⟨fun _ => none⟩ 1
      ⟨0, true, fun _ _ => .error (.api "bad"), ⟨"ts", true, true, 1⟩⟩
      ⟨"ts", true, none, ⟨0, true, fun _ _ => .ok ⟨"u", "r"⟩,
        ⟨"ts", true, true, 1⟩⟩⟩ "anime" "up.jpg").2.2.2.2.2.1 rfl rfl rfl
      (.api "bad") (by simp [callWithRetry, retryFrom, ApiError.isConnection]),
   (counters_track_successful_operations ⟨none, 3, 4, 5, none⟩
      ⟨fun _ => none⟩ 1
      ⟨0, true, fun _ _ => .ok ⟨"u", "r"⟩, ⟨"ts", true, true, 1⟩⟩
      ⟨"ts", true, none, ⟨0, true, fun _ _ => .ok ⟨"u", "r"⟩,
        ⟨"ts", true, true, 1⟩⟩⟩ "a cat" "up.jpg").2.2.2.2.2.2.1 rfl rfl
      ⟨"u", "r"⟩ (by simp [callWithRetry, retryFrom]),
   (counters_track_successful_operations ⟨none, 3, 4, 5, none⟩
      ⟨fun _ => some 0⟩ 1
      ⟨5, true, fun _ _ => .ok ⟨"u", "r"⟩, ⟨"ts", true, true, 1⟩⟩
      ⟨"ts", true, none, ⟨0, true, fun _ _ => .ok ⟨"u", "r"⟩,
        ⟨"ts", true, true, 1⟩⟩⟩ "a cat" "up.jpg").2.2.2.2.2.2.2.1 rfl
      (by norm_num [check_rate_limit, REQUEST_COOLDOWN]),
   (counters_track_successful_operations ⟨none, 3, 4, 5, none⟩
      ⟨fun _ => none⟩ 1
      ⟨0, true, fun _ _ => .error (.api "bad"), ⟨"ts", true, true, 1⟩⟩
      ⟨"ts", true, none, ⟨0, true, fun _ _ => .ok ⟨"u", "r"⟩,
        ⟨"ts", true, true, 1⟩⟩⟩ "a cat" "up.jpg").2.2.2.2.2.2.2.2 rfl rfl
      (.api "bad") (by simp [callWithRetry, retryFrom, ApiError.isConnection])⟩

/-- The RGB conversion step never changes the image dimensions. -/
theorem convertToRGB_dims (img : PILImage) :
    (convertToRGB img).width = img.width ∧
    (convertToRGB img).height = img.height := by
  cases img with
  | mk m w h => cases m <;> exact ⟨rfl, rfl⟩

/-- The resize step never changes the color mode. -/
theorem resizeStep_mode (img1 : PILImage) :
    (resizeStep img1).mode = img1.mode := by
  unfold resizeStep
  split <;> rfl

/-- Pillow's thumbnail into a 1024×1024 box yields dimensions within the
box. -/
theorem thumbnailSize_le (w h : ℕ) :
    (thumbnailSize w h 1024 1024).1 ≤ 1024 ∧
    (thumbnailSize w h 1024 1024).2 ≤ 1024 := by
  unfold thumbnailSize
  by_cases hfit : 1024 ≥ w ∧ 1024 ≥ h
  · rw [if_pos hfit]
    exact ⟨hfit.1, hfit.2⟩
  · rw [if_neg hfit]
    by_cases hbr : ((1024 : ℕ) : ℚ) / ((1024 : ℕ) : ℚ) ≥ (w : ℚ) / (h : ℚ)
    · rw [if_pos hbr]
      have hasp1 : (w : ℚ) / (h : ℚ) ≤ 1 := by
        have h1 : ((1024 : ℕ) : ℚ) / ((1024 : ℕ) : ℚ) = 1 := by
          push_cast; norm_num
        linarith [h1 ▸ hbr]
      have harg : ((1024 : ℕ) : ℚ) * ((w : ℚ) / (h : ℚ)) ≤ ((1024 : ℤ) : ℚ) := by
        push_cast
        nlinarith [hasp1]
      have hceil : ⌈((1024 : ℕ) : ℚ) * ((w : ℚ) / (h : ℚ))⌉ ≤ (1024 : ℤ) :=
        Int.ceil_le.mpr harg
      have hfloor : ⌊((1024 : ℕ) : ℚ) * ((w : ℚ) / (h : ℚ))⌋ ≤ (1024 : ℤ) :=
        le_trans (Int.floor_le_ceil _) hceil
      refine ⟨?_, le_refl _⟩
      rw [Int.toNat_le]
      refine max_le ?_ (by norm_num)
      split <;> assumption
    · rw [if_neg hbr]
      push_neg at hbr
      have h1lt : (1 : ℚ) < (w : ℚ) / (h : ℚ) := by
        have h1 : ((1024 : ℕ) : ℚ) / ((1024 : ℕ) : ℚ) = 1 := by
          push_cast; norm_num
        linarith [h1 ▸ hbr]
      have harg : ((1024 : ℕ) : ℚ) / ((w : ℚ) / (h : ℚ)) ≤ ((1024 : ℤ) : ℚ) := by
        push_cast
        exact div_le_self (by norm_num) (le_of_lt h1lt)
      have hceil : ⌈((1024 : ℕ) : ℚ) / ((w : ℚ) / (h : ℚ))⌉ ≤ (1024 : ℤ) :=
        Int.ceil_le.mpr harg
      have hfloor : ⌊((1024 : ℕ) : ℚ) / ((w : ℚ) / (h : ℚ))⌋ ≤ (1024 : ℤ) :=
        le_trans (Int.floor_le_ceil _) hceil
      refine ⟨le_refl _, ?_⟩
      rw [Int.toNat_le]
      refine max_le ?_ (by norm_num)
      split <;> assumption

/-- Pillow's thumbnail of a 2000×3000 image into a 1024×1024 box is
683×1024 (the ceiling 683 is the better aspect approximation of
`1024 · 2000/3000 = 682.67`). -/
theorem thumbnailSize_2000_3000 :
    thumbnailSize 2000 3000 1024 1024 = (683, 1024) := by
  unfold thumbnailSize round_aspect
  rw [if_neg (by norm_num)]
  rw [if_pos (by push_cast; norm_num)]
  have hfl :
      ⌊((1024 : ℕ) : ℚ) * (((2000 : ℕ) : ℚ) / ((3000 : ℕ) : ℚ))⌋ = 682 := by
    push_cast
    rw [Int.floor_eq_iff]
    norm_num
  have hcl :
      ⌈((1024 : ℕ) : ℚ) * (((2000 : ℕ) : ℚ) / ((3000 : ℕ) : ℚ))⌉ = 683 := by
    push_cast
    rw [Int.ceil_eq_iff]
    norm_num
  rw [hfl, hcl]
  rw [if_neg (by push_cast; rw [abs_of_nonneg (by norm_num), abs_of_nonpos (by norm_num)]; norm_num)]
  decide

/-- C8: `prepare_image_for_api` converts the non-opaque modes (RGBA, LA,
palette) to the opaque RGB mode, bounds both output dimensions by 1024 (a
2000×3000 RGBA input comes out as a 683×1024 RGB image), and returns the
sibling PNG path `<base>_prepared.png`; on a successful transformation the
caller removes exactly this intermediate file. -/
theorem prepare_image_properties (img : PILImage) (path : String) :
    ((img.mode = .RGBA ∨ img.mode = .LA ∨ img.mode = .P) →
      (prepare_image_for_api img path).1.mode = .RGB) ∧
    (prepare_image_for_api img path).1.width ≤ 1024 ∧
    (prepare_image_for_api img path).1.height ≤ 1024 ∧
    (prepare_image_for_api img path).2 = rsplitBase path ++ "_prepared.png" ∧
    (prepare_image_for_api ⟨.RGBA, 2000, 3000⟩ path).1 = ⟨.RGB, 683, 1024⟩ ∧
    (∀ (ud : UserData) (rs : RateState) (userId : ℤ) (env : HandlerEnv)
        (prompt p : String) (resp : ImageResponse),
      ud.uploadedImagePath = some p →
      (check_rate_limit rs userId env.now).1 = true →
      env.prepareOk = true →
      (callWithRetry (env.genCall (full_prompt prompt))).outcome = .ok resp →
      (transform_image ud rs userId env prompt).removedFiles =
        [prepare_output_path p]) := by
  have hbounds : ∀ img1 : PILImage,
      (resizeStep img1).width ≤ 1024 ∧ (resizeStep img1).height ≤ 1024 := by
    intro img1
    unfold resizeStep MAX_SIZE
    by_cases hbig : img1.width > 1024 ∨ img1.height > 1024
    · rw [if_pos hbig]
      exact thumbnailSize_le img1.width img1.height
    · rw [if_neg hbig]
      push_neg at hbig
      exact ⟨hbig.1, hbig.2⟩
  refine ⟨?_, ?_, ?_, rfl, ?_, ?_⟩
  · intro hm
    show (resizeStep (convertToRGB img)).mode = .RGB
    rw [resizeStep_mode]
    cases img with
    | mk m w h =>
      rcases hm with h1 | h1 | h1 <;> simp at h1 <;> subst h1 <;> rfl
  · exact (hbounds (convertToRGB img)).1
  · exact (hbounds (convertToRGB img)).2
  · show resizeStep (convertToRGB ⟨.RGBA, 2000, 3000⟩) = ⟨.RGB, 683, 1024⟩
    have h1 : convertToRGB ⟨.RGBA, 2000, 3000⟩ = ⟨.RGB, 2000, 3000⟩ := rfl
    rw [h1]
    unfold resizeStep MAX_SIZE
    rw [if_pos (by norm_num)]
    rw [thumbnailSize_2000_3000]
  · intro ud rs userId env prompt p resp hup hrl hprep hgen
    unfold transform_image
    rw [hup]
    simp only [hrl, hprep, Bool.true_eq_false, if_false]
    rw [hgen]

/-- Witness for `prepare_image_properties` on a concrete 2000×3000 RGBA
image and a concrete successful transformation. -/
theorem prepare_image_properties_witness :
    (prepare_image_for_api ⟨.RGBA, 2000, 3000⟩
      "uploaded_images/1/up.jpg").1.mode = .RGB ∧
    (prepare_image_for_api ⟨.RGBA, 2000, 3000⟩
      "uploaded_images/1/up.jpg").1.width ≤ 1024 ∧
    (prepare_image_for_api ⟨.RGBA, 2000, 3000⟩
      "uploaded_images/1/up.jpg").2 =
      rsplitBase "uploaded_images/1/up.jpg" ++ "_prepared.png" ∧
    (transform_image ⟨some "up.jpg", 0, 0, 0, none⟩ ⟨fun _ => none⟩ 1
      ⟨0, true, fun _ _ => .ok ⟨"u", "r"⟩, ⟨"ts", true, true, 1⟩⟩
      "anime").removedFiles = [prepare_output_path "up.jpg"] :=
  ⟨(prepare_image_properties ⟨.RGBA, 2000, 3000⟩
      "uploaded_images/1/up.jpg").1 (Or.inl rfl),
   (prepare_image_properties ⟨.RGBA, 2000, 3000⟩
      "uploaded_images/1/up.jpg").2.1,
   (prepare_image_properties ⟨.RGBA, 2000, 3000⟩
      "uploaded_images/1/up.jpg").2.2.2.1,
   (prepare_image_properties ⟨.RGBA, 2000, 3000⟩
      "uploaded_images/1/up.jpg").2.2.2.2.2
      ⟨some "up.jpg", 0, 0, 0, none⟩ ⟨fun _ => none⟩ 1
      ⟨0, true, fun _ _ => .ok ⟨"u", "r"⟩, ⟨"ts", true, true, 1⟩⟩
      "anime" "up.jpg" ⟨"u", "r"⟩ rfl rfl rfl
      (by simp [callWithRetry, retryFrom])⟩

/-- C9: a failed download or write in `save_generated_image` yields the
no-file result `(None, 0)` instead of raising, and a generation whose
archival save fails still completes successfully: the image is delivered
with the saved-file field shown as `N/A` and the success counter still
increments. -/
theorem save_failure_does_not_abort_generation (ud : UserData)
    (rs : RateState) (userId : ℤ) (env : HandlerEnv) (prompt : String)
    (resp : ImageResponse) :
    (env.save.downloadOk = false ∨ env.save.writeOk = false →
      save_generated_image env.save userId "generated" = (none, 0)) ∧
    (ud.uploadedImagePath = none →
      (check_rate_limit rs userId env.now).1 = true →
      (callWithRetry (env.genCall prompt)).outcome = .ok resp →
      (env.save.downloadOk = false ∨ env.save.writeOk = false) →
      (generate_image ud rs userId env prompt).result = .success resp none ∧
      savedNameCaption
        (save_generated_image env.save userId "generated").1 = "N/A" ∧
      (generate_image ud rs userId env prompt).userData.imagesGenerated
        = ud.imagesGenerated + 1) := by
  have hsave : env.save.downloadOk = false ∨ env.save.writeOk = false →
      save_generated_image env.save userId "generated" = (none, 0) := by
    intro h
    unfold save_generated_image
    rcases h with h | h <;> simp [h]
  refine ⟨hsave, ?_⟩
  intro hup hrl hgen hfail
  refine ⟨?_, by rw [hsave hfail]; rfl, ?_⟩
  · unfold generate_image
    rw [hup]
    simp only [Option.isSome_none, Bool.false_eq_true, if_false, hrl,
      Bool.true_eq_false]
    rw [hgen, hsave hfail]
  · unfold generate_image
    rw [hup]
    simp only [Option.isSome_none, Bool.false_eq_true, if_false, hrl,
      Bool.true_eq_false]
    rw [hgen]

/-- Witness for `save_failure_does_not_abort_generation` with a failing
download. -/
theorem save_failure_does_not_abort_generation_witness :
    (save_generated_image ⟨"ts", false, true, 0⟩ 1 "generated" = (none, 0)) ∧
    ((generate_image ⟨none, 0, 0, 0, none⟩ ⟨fun _ => none⟩ 1
        ⟨0, true, fun _ _ => .ok ⟨"u", "r"⟩, ⟨"ts", false, true, 0⟩⟩
        "a cat").result = .success ⟨"u", "r"⟩ none ∧
      savedNameCaption
        (save_generated_image ⟨"ts", false, true, 0⟩ 1 "generated").1
        = "N/A" ∧
      (generate_image ⟨none, 0, 0, 0, none⟩ ⟨fun _ => none⟩ 1
        ⟨0, true, fun _ _ => .ok ⟨"u", "r"⟩, ⟨"ts", false, true, 0⟩⟩
        "a cat").userData.imagesGenerated = 0 + 1) :=
  ⟨(save_failure_does_not_abort_generation ⟨none, 0, 0, 0, none⟩
      ⟨fun _ => none⟩ 1
      ⟨0, true, fun _ _ => .ok ⟨"u", "r"⟩, ⟨"ts", false, true, 0⟩⟩
      "a cat" ⟨"u", "r"⟩).1 (Or.inl rfl),
   (save_failure_does_not_abort_generation ⟨none, 0, 0, 0, none⟩
      ⟨fun _ => none⟩ 1
      ⟨0, true, fun _ _ => .ok ⟨"u", "r"⟩, ⟨"ts", false, true, 0⟩⟩
      "a cat" ⟨"u", "r"⟩).2 rfl rfl
      (by simp [callWithRetry, retryFrom]) (Or.inl rfl)⟩

end ImgGen
